import Mathlib

/-!
Verification development for the DB_Compass cross-backend data adapter layer
(`src/app.py`).  The adapter classes (`SQLAdapter`, `MongoAdapter`,
`RedisAdapter`) and the adapter factory `get_adapter` are shallowly embedded
below: the live backend connections are modelled as explicit state (a
key-value store for Redis) or as executor oracles (for the SQL engine), and
each Python method becomes a pure Lean function following the source line by
line.
-/

namespace DBCompass

/-- Model of the Python runtime values that flow through the adapter layer:
JSON payload values (str/int/bool/None/list/dict) together with the two
backend-native scalar shapes that the relational row codec inspects, namely
values exposing an `isoformat` attribute (datetimes, carrying their ISO-8601
rendering) and raw byte blobs. -/
inductive PyObj where
  | pyStr (s : String)
  | pyInt (n : Int)
  | pyBool (b : Bool)
  | pyNone
  | pyDatetime (iso : String)
  | pyBytes (bs : List Nat)
  | pyList (l : List PyObj)
  | pyDict (m : List (String × PyObj))

/-- Python `str()` on the values above (container renderings are the
plain best-effort forms; only the scalar cases are exercised by the code). -/
def pyStrFn : PyObj → String
  | .pyStr s => s
  | .pyInt n => toString n
  | .pyBool b => if b then "True" else "False"
  | .pyNone => "None"
  | .pyDatetime iso => iso
  | .pyBytes _ => "<bytes>"
  | .pyList _ => "<list>"
  | .pyDict _ => "<dict>"

/-- Python's substring test `sub in s`. -/
def pyIn (sub s : String) : Bool := decide (sub.data <:+: s.data)

/-- Python's `s.startswith(pre)`. -/
def pyStartsWith (s pre : String) : Bool := decide (pre.data <+: s.data)

/-- Python's `s.upper()` (ASCII). -/
def pyUpper (s : String) : String := String.mk (s.data.map Char.toUpper)

/-- The fixed page size constant `ROWS_PER_PAGE = 50` (src/app.py line 24). -/
def ROWS_PER_PAGE : Nat := 50

/-- Python dict assignment `d[k] = v` on an insertion-ordered mapping:
replace the value in place if the key is present, append otherwise. -/
def setKey (d : List (String × α)) (k : String) (v : α) : List (String × α) :=
  if (d.lookup k).isSome then
    d.map (fun p => if p.1 = k then (k, v) else p)
  else
    d ++ [(k, v)]

/-- Python `del d[k]`: remove the (unique) entry for key `k`. -/
def delKey (d : List (String × α)) (k : String) : List (String × α) :=
  d.eraseP (fun p => p.1 == k)

/-- Python list slicing `l[start:stop]`, with the clamping and
negative-index semantics of the CPython slice protocol. -/
def pySlice (l : List α) (start stop : Int) : List α :=
  let n : Int := l.length
  let s : Int := if start < 0 then max (n + start) 0 else min start n
  let e : Int := if stop < 0 then max (n + stop) 0 else min stop n
  (l.drop s.toNat).take (e - s).toNat

/-- Python `sorted(l, reverse=rev)` for strings (lexicographic). -/
def pySortedRev (rev : Bool) (l : List String) : List String :=
  let s := l.mergeSort (fun a b => decide (a ≤ b))
  if rev then s.reverse else s

/-- Rendering used to model `json.dumps` on string-valued pairs
(`{'key': k, 'val': v}` in `RedisAdapter.get_rows`); escaping elided. -/
def jsonKV (k v : String) : String :=
  "\x7b\"key\": \"" ++ k ++ "\", \"val\": \"" ++ v ++ "\"\x7d"

/-! ## Redis adapter (`RedisAdapter`, src/app.py lines 240-287)

The live connection `self.r` is modelled as the keyspace of the currently
selected partition: an insertion-ordered association of key names to typed
Redis values. -/

/-- A stored Redis value: string, hash (field map), list, or set. -/
inductive RVal where
  | rstr (s : String)
  | rhash (m : List (String × String))
  | rlist (l : List String)
  | rset (members : List String)
deriving DecidableEq

/-- The keyspace of the currently selected Redis partition. -/
abbrev RedisStore := List (String × RVal)

/-- `TYPE k` — the type tag Redis reports for a key (`"none"` if absent). -/
def redisTypeOf (st : RedisStore) (k : String) : String :=
  match st.lookup k with
  | some (.rstr _) => "string"
  | some (.rhash _) => "hash"
  | some (.rlist _) => "list"
  | some (.rset _) => "set"
  | none => "none"

/-- `DEL k`. -/
def redisDelete (st : RedisStore) (k : String) : RedisStore :=
  st.eraseP (fun p => p.1 == k)

/-- `SET k v` — overwrites any existing value regardless of its type. -/
def redisSet (st : RedisStore) (k v : String) : RedisStore :=
  setKey st k (.rstr v)

/-- The value coercion the redis client applies to command arguments:
str and int are accepted, anything else raises `DataError`. -/
def redisCoerceVal : PyObj → Except String String
  | .pyStr s => .ok s
  | .pyInt n => .ok (toString n)
  | _ => .error "DataError"

/-- Coerce a payload mapping for `HSET ... mapping=...`. -/
def coerceMapping (m : List (String × PyObj)) : Except String (List (String × String)) :=
  m.mapM (fun p => (redisCoerceVal p.2).map (fun s => (p.1, s)))

/-- Field-wise upsert: `HSET` writes the given fields into the hash,
leaving all other existing fields untouched. -/
def hashUpsert (old fields : List (String × String)) : List (String × String) :=
  fields.foldl (fun acc fv => setKey acc fv.1 fv.2) old

/-- `HSET k mapping=m`: errors on a wrong-type key, otherwise merges the
given fields into the existing hash (creating the key if absent). -/
def redisHSet (st : RedisStore) (k : String) (m : List (String × PyObj)) :
    Except String RedisStore :=
  match coerceMapping m with
  | .error e => .error e
  | .ok fields =>
    match st.lookup k with
    | none => .ok (setKey st k (.rhash (hashUpsert [] fields)))
    | some (.rhash old) => .ok (setKey st k (.rhash (hashUpsert old fields)))
    | some _ => .error "WRONGTYPE"

/-- `RPUSH k *vals`: errors when called with no values or on a wrong-type
key, otherwise appends to the existing list (creating the key if absent). -/
def redisRPush (st : RedisStore) (k : String) (vals : List PyObj) :
    Except String RedisStore :=
  if vals.isEmpty then .error "wrong number of arguments" else
  match vals.mapM redisCoerceVal with
  | .error e => .error e
  | .ok elems =>
    match st.lookup k with
    | none => .ok (setKey st k (.rlist elems))
    | some (.rlist old) => .ok (setKey st k (.rlist (old ++ elems)))
    | some _ => .error "WRONGTYPE"

/-- `FLUSHDB`: deletes every key of the currently selected partition. -/
def redisFlushDb (_st : RedisStore) : RedisStore := []

namespace RedisAdapter

/-- `RedisAdapter.list_databases`: the fixed enumeration of the 16 numbered
partitions. -/
def list_databases : List String :=
  (List.range 16).map (fun i => "DB " ++ toString i)

/-- `RedisAdapter.drop_database(db_name)`: `self.r.flushdb()` — the
argument is ignored; the current partition is flushed. -/
def drop_database (st : RedisStore) (_db_name : String) : RedisStore :=
  redisFlushDb st

/-- `RedisAdapter.list_tables`: the single virtual pseudo-item `"Keys"`. -/
def list_tables (_st : RedisStore) (_db_name : String) : List String :=
  ["Keys"]

/-- `RedisAdapter.drop_table(db_name, table)`: `self.r.flushdb()` — both
arguments are ignored; the current partition is flushed. -/
def drop_table (st : RedisStore) (_db_name _table : String) : RedisStore :=
  redisFlushDb st

/-- `self.r.keys(pattern)` with `pattern = f"*\x7bsearch\x7d*" if search
else "*"`: all key names, filtered to those containing the search term when
one is given (an empty search term is falsy and yields the `"*"` pattern). -/
def matchedKeys (st : RedisStore) (search : Option String) : List String :=
  match search with
  | some s => if s = "" then st.map Prod.fst
              else (st.map Prod.fst).filter (fun k => pyIn s k)
  | none => st.map Prod.fst

/-- One element of the row list `RedisAdapter.get_rows` builds. -/
structure RedisListRow where
  __id : String
  type : String
  value : String
  __raw : String
deriving DecidableEq

/-- `RedisAdapter.get_rows`: enumerate keys by pattern, sort them by name
(`sort_col` is accepted but unused by the source), slice out the requested
page, and inspect each key to build its row. -/
def get_rows (st : RedisStore) (_db_name _table : String) (page : Int)
    (search : Option String) (_sort_col : Option String) (sort_dir : String) :
    List RedisListRow × Nat :=
  let keys := pySortedRev (sort_dir = "desc") (matchedKeys st search)
  let total := keys.length
  let start : Int := (page - 1) * (ROWS_PER_PAGE : Int)
  let page_keys := pySlice keys start (start + (ROWS_PER_PAGE : Int))
  (page_keys.map (fun k =>
    let t := redisTypeOf st k
    let v := if t = "string"
             then (match st.lookup k with | some (.rstr s) => s | _ => "")
             else "(" ++ t ++ ")"
    { __id := k, type := t, value := v, __raw := jsonKV k v }), total)

/-- The type-dependent value `RedisAdapter.get_row` returns. -/
inductive RValOut where
  | oStr (s : String)
  | oMap (m : List (String × String))
  | oList (l : List String)
deriving DecidableEq

/-- The row shape `RedisAdapter.get_row` returns. -/
structure RedisRow where
  key : String
  type : String
  value : RValOut
deriving DecidableEq

/-- `RedisAdapter.get_row`: `None` for an absent key, otherwise the key,
its type tag, and the type-dependent value (`GET` / `HGETALL` /
`LRANGE 0 -1` / `list(SMEMBERS)`). -/
def get_row (st : RedisStore) (_db_name _table : String) (id : String) :
    Option RedisRow :=
  match st.lookup id with
  | none => none
  | some (.rstr s) => some { key := id, type := "string", value := .oStr s }
  | some (.rhash m) => some { key := id, type := "hash", value := .oMap m }
  | some (.rlist l) => some { key := id, type := "list", value := .oList l }
  | some (.rset ms) => some { key := id, type := "set", value := .oList ms }

/-- `RedisAdapter.save_row`:
`key = data.get('key', id); val = data.get('value')`, then a type-directed
write — dict payloads via `HSET mapping=`, list payloads via `DEL` then
`RPUSH`, anything else via `SET key str(val)`.  (`is_new` is unused by the
source; non-string `'key'` values are coerced by the client.) -/
def save_row (st : RedisStore) (_db_name _table id : String)
    (data : List (String × PyObj)) (_is_new : Bool) : Except String RedisStore :=
  let key := match data.lookup "key" with
    | some v => pyStrFn v
    | none => id
  let val := (data.lookup "value").getD .pyNone
  match val with
  | .pyDict m => redisHSet st key m
  | .pyList l => redisRPush (redisDelete st key) key l
  | v => .ok (redisSet st key (pyStrFn v))

end RedisAdapter

/-! ## Relational adapter (`SQLAdapter`, src/app.py lines 119-238)

The live engine is modelled as an executor oracle: `dialect` is
`self.engine.dialect.name`, `execScalar` models
`conn.execute(stmt, params).scalar()` and `execQuery` models iterating
`conn.execute(stmt, params)` as a list of column-name/value rows.  Either
executor may fail, modelling a raised backend exception. -/

structure SQLEngine where
  dialect : String
  execScalar : String → List (String × String) → Except String Int
  execQuery : String → List (String × String) →
    Except String (List (List (String × PyObj)))

namespace SQLAdapter

/-- `SQLAdapter.get_pk`: the first introspected primary-key column;
`'id'` when the constraint list is empty or introspection raised
(`introspected = none`). -/
def get_pk (introspected : Option (List String)) : String :=
  match introspected with
  | some (c :: _) => c
  | some [] => "id"
  | none => "id"

/-- `sort_field = sort_col if sort_col else pk` — the caller-supplied sort
column is taken verbatim whenever it is truthy (non-empty). -/
def sortField (sort_col : Option String) (pk : String) : String :=
  match sort_col with
  | some s => if s = "" then pk else s
  | none => pk

/-- The `WHERE` clause and bind parameters built for a search term: on a
postgresql dialect the whole row is cast to text and matched with `ILIKE`;
otherwise the primary-key column is matched with `LIKE`.  An absent or
empty (falsy) term yields no clause. -/
def searchClause (dialect pk table : String) (search : Option String) :
    String × List (String × String) :=
  match search with
  | some s =>
    if s = "" then ("", [])
    else if pyIn "postgresql" dialect then
      ("WHERE " ++ table ++ "::text ILIKE :search", [("search", "%" ++ s ++ "%")])
    else
      ("WHERE " ++ pk ++ " LIKE :search", [("search", "%" ++ s ++ "%")])
  | none => ("", [])

/-- The count statement `SELECT COUNT(*) FROM {table} {where_clause}`. -/
def countStmt (table wc : String) : String :=
  "SELECT COUNT(*) FROM " ++ table ++ " " ++ wc

/-- The page statement: the sort field and direction are interpolated
directly into the text, as in the source. -/
def rowsStmt (table wc sf sd : String) (offset : Int) : String :=
  "SELECT * FROM " ++ table ++ " " ++ wc ++ " ORDER BY " ++ sf ++ " " ++
    pyUpper sd ++ " LIMIT " ++ toString ROWS_PER_PAGE ++ " OFFSET " ++
    toString offset

/-- The per-cell codec of `SQLAdapter.get_rows`: a value with an
`isoformat` attribute becomes its ISO-8601 string, a byte blob becomes the
`"<binary>"` placeholder, everything else passes through. -/
def serializeCell : PyObj → PyObj
  | .pyDatetime iso => .pyStr iso
  | .pyBytes _ => .pyStr "<binary>"
  | v => v

/-- The per-cell codec of `SQLAdapter.get_row`: only the `isoformat`
conversion is applied. -/
def serializeCellGetRow : PyObj → PyObj
  | .pyDatetime iso => .pyStr iso
  | v => v

/-- Rendering used to model `json.dumps(d, default=str)` for the `__raw`
field (escaping elided; post-codec rows contain only scalars). -/
def jsonDumpsRow (d : List (String × PyObj)) : String :=
  "\x7b" ++ String.intercalate ", "
    (d.map (fun p => "\"" ++ p.1 ++ "\": \"" ++ pyStrFn p.2 ++ "\"")) ++ "\x7d"

/-- The row post-processing loop of `SQLAdapter.get_rows`: apply the codec
to every cell, then add the derived `__id` (the stringified primary-key
cell, `str(None)` if absent) and `__raw` fields. -/
def decorateRow (pk : String) (r : List (String × PyObj)) :
    List (String × PyObj) :=
  let d := r.map (fun p => (p.1, serializeCell p.2))
  let d2 := setKey d "__id" (.pyStr (pyStrFn ((d.lookup pk).getD .pyNone)))
  setKey d2 "__raw" (.pyStr (jsonDumpsRow d2))

/-- `SQLAdapter.get_rows`: build the statements, run the count inside
`try/except` (failures degrade the total to `0`), run the page query (a
failure propagates), post-process the rows. -/
def get_rows (eng : SQLEngine) (introspectedPk : Option (List String))
    (_db_name table : String) (page : Int) (search : Option String)
    (sort_col : Option String) (sort_dir : String) :
    Except String (List (List (String × PyObj)) × Int) :=
  let pk := get_pk introspectedPk
  let sf := sortField sort_col pk
  let offset : Int := (page - 1) * (ROWS_PER_PAGE : Int)
  let wcp := searchClause eng.dialect pk table search
  let sql_count := countStmt table wcp.1
  let sql_rows := rowsStmt table wcp.1 sf sort_dir offset
  let total : Int := match eng.execScalar sql_count wcp.2 with
    | .ok n => n
    | .error _ => 0
  match eng.execQuery sql_rows wcp.2 with
  | .error e => .error e
  | .ok rs => .ok (rs.map (decorateRow pk), total)

/-- `SQLAdapter.get_row`: select by primary key, take the first mapping,
and apply only the `isoformat` conversion to its cells. -/
def get_row (eng : SQLEngine) (introspectedPk : Option (List String))
    (_db_name table id : String) :
    Except String (Option (List (String × PyObj))) :=
  let pk := get_pk introspectedPk
  match eng.execQuery ("SELECT * FROM " ++ table ++ " WHERE " ++ pk ++ " = :id")
      [("id", id)] with
  | .error e => .error e
  | .ok [] => .ok none
  | .ok (r :: _) => .ok (some (r.map (fun p => (p.1, serializeCellGetRow p.2))))

/-- `SQLAdapter.save_row`, observed as the statement text and bind
parameters it issues: `if '__id' in data: del data['__id']`, then either a
dynamic `INSERT` built from the remaining keys, or an `UPDATE` whose `SET`
list is built from the remaining keys with `pk_val` bound to the row id. -/
def save_row_stmt (introspectedPk : Option (List String)) (table id : String)
    (data : List (String × PyObj)) (is_new : Bool) :
    String × List (String × PyObj) :=
  let pk := get_pk introspectedPk
  let data := if (data.lookup "__id").isSome then delKey data "__id" else data
  if is_new then
    let cols := String.intercalate ", " (data.map Prod.fst)
    let vals := String.intercalate ", " (data.map (fun p => ":" ++ p.1))
    ("INSERT INTO " ++ table ++ " (" ++ cols ++ ") VALUES (" ++ vals ++ ")", data)
  else
    let sets := String.intercalate ", "
      (data.map (fun p => p.1 ++ "=:" ++ p.1))
    ("UPDATE " ++ table ++ " SET " ++ sets ++ " WHERE " ++ pk ++ " = :pk_val",
      data ++ [("pk_val", .pyStr id)])

/-- The engine seen by `SQLAdapter.list_databases`: the dialect name, the
database segment of the engine URL, and an executor for the catalog
statement (whose failure models a raised exception anywhere inside the
`try` block). -/
structure CatalogEngine where
  dialectName : String
  urlDatabase : Option String
  runCatalog : String → Except String (List String)

/-- The postgresql system-catalog statement issued by `list_databases`. -/
def pgCatalogStmt : String :=
  "SELECT datname FROM pg_database WHERE datistemplate = false;"

/-- The mysql system-catalog statement issued by `list_databases`. -/
def mysqlCatalogStmt : String := "SHOW DATABASES;"

/-- `SQLAdapter.list_databases`: dispatch on the exact dialect name; sort
the catalog result; on any raised exception return the literal
`['default']`; for other dialects return the URL database segment
(or `'main'`). -/
def list_databases (eng : CatalogEngine) : List String :=
  if eng.dialectName = "postgresql" then
    match eng.runCatalog pgCatalogStmt with
    | .ok rs => pySortedRev false rs
    | .error _ => ["default"]
  else if eng.dialectName = "mysql" then
    match eng.runCatalog mysqlCatalogStmt with
    | .ok rs => pySortedRev false rs
    | .error _ => ["default"]
  else [eng.urlDatabase.getD "main"]

end SQLAdapter

/-! ## Document adapter (`MongoAdapter`, src/app.py lines 55-117) -/

/-- A BSON ObjectId is a 24-character hex string; `ObjectId(s)` succeeds
exactly on those. -/
def objectIdOf (s : String) : Option String :=
  if s.length = 24 ∧ s.data.all (fun c => c.isDigit ||
      (decide ('a' ≤ c) && decide (c ≤ 'f')) ||
      (decide ('A' ≤ c) && decide (c ≤ 'F'))) then
    some s
  else none

/-- The id coercion `try: oid = ObjectId(id) except: oid = id`. -/
inductive MongoId where
  | oid (s : String)
  | raw (s : String)
deriving DecidableEq

def coerceMongoId (id : String) : MongoId :=
  match objectIdOf id with
  | some o => .oid o
  | none => .raw id

/-- The write a `MongoAdapter.save_row` call issues against the
collection. -/
inductive MongoWrite where
  | insertOne (doc : List (String × PyObj))
  | replaceOne (filter : MongoId) (doc : List (String × PyObj))

/-- Python `s.strip()`: drop leading and trailing whitespace. -/
def pyStrip (s : String) : String :=
  String.mk
    (((s.data.dropWhile Char.isWhitespace).reverse.dropWhile
      Char.isWhitespace).reverse)

/-- The three query shapes `MongoAdapter.get_rows` builds: the empty
filter, an exact `_id` match against a parsed ObjectId, or the
case-insensitive `$regex` match on `_id`. -/
inductive MongoQuery where
  | all
  | idEq (oid : String)
  | idRegex (pattern : String)
deriving DecidableEq

/-- A live document collection, modelled at the driver boundary: the
server evaluates the filter and sort (`find(query).sort(field, dir)`
yields one fixed ordered result list for a fixed store) and
`count_documents` the total.  The cursor's `skip(n).limit(m)` contract —
yielding the slice `[n, n+m)` of that ordered result — is concrete in the
embedding of `get_rows` below. -/
structure MongoCollection where
  findSorted : MongoQuery → String → Bool → List (List (String × PyObj))
  countDocuments : MongoQuery → Int

namespace MongoAdapter

/-- `MongoAdapter.save_row`, observed as the issued write: an insert of the
payload as-is when `is_new`, otherwise `if '_id' in data: del data['_id']`
followed by a full replace filtered on the coerced id. -/
def save_row_write (id : String) (data : List (String × PyObj))
    (is_new : Bool) : MongoWrite :=
  if is_new then .insertOne data
  else
    let data := if (data.lookup "_id").isSome then delKey data "_id" else data
    .replaceOne (coerceMongoId id) data

/-- The payload the issued write carries. -/
def writeDoc : MongoWrite → List (String × PyObj)
  | .insertOne d => d
  | .replaceOne _ d => d

/-- The filter `MongoAdapter.get_rows` builds: an absent or empty (falsy)
term yields the empty filter; otherwise the stripped term is tried as an
ObjectId (`try: query = ... ObjectId(search)`), falling back to the
case-insensitive `$regex` match on `_id`. -/
def buildQuery (search : Option String) : MongoQuery :=
  match search with
  | some s =>
    if s = "" then .all
    else
      match objectIdOf (pyStrip s) with
      | some o => .idEq o
      | none => .idRegex (pyStrip s)
  | none => .all

/-- `sort_field = sort_col if sort_col else '_id'`, then the alias
`'id' -> '_id'`. -/
def buildSortField (sort_col : Option String) : String :=
  let sf := match sort_col with
    | some s => if s = "" then "_id" else s
    | none => "_id"
  if sf = "id" then "_id" else sf

/-- The normalized identifier `str(doc['_id'])` of a document (every
stored document carries `_id`; an absent one is modelled as `None`). -/
def rowId (d : List (String × PyObj)) : String :=
  pyStrFn ((d.lookup "_id").getD .pyNone)

/-- The per-document decoration loop of `MongoAdapter.get_rows`:
`doc['__id'] = str(doc['_id'])`, then the raw JSON rendering of the
decorated document. -/
def decorateDoc (d : List (String × PyObj)) : List (String × PyObj) :=
  let d2 := setKey d "__id" (.pyStr (rowId d))
  setKey d2 "__raw" (.pyStr (SQLAdapter.jsonDumpsRow d2))

/-- `MongoAdapter.get_rows`: build the `_id` filter from the search term,
resolve the sort field, count the matches, then page the sorted cursor
with `skip((page-1)*ROWS_PER_PAGE).limit(ROWS_PER_PAGE)` — the slice
`[skip, skip+50)` of the ordered result — and decorate each document.
(The client raises on a negative skip; only 1-based pages are meaningful.) -/
def get_rows (col : MongoCollection) (_db_name _table : String)
    (page : Int) (search : Option String) (sort_col : Option String)
    (sort_dir : String) : List (List (String × PyObj)) × Int :=
  let query := buildQuery search
  let sort_field := buildSortField sort_col
  let ascending := sort_dir = "asc"
  let total := col.countDocuments query
  let skip : Int := (page - 1) * (ROWS_PER_PAGE : Int)
  let docs := pySlice (col.findSorted query sort_field ascending) skip
    (skip + (ROWS_PER_PAGE : Int))
  (docs.map decorateDoc, total)

end MongoAdapter

/-! ## Adapter selector (`get_adapter`, src/app.py lines 289-300) -/

/-- The three backend families. -/
inductive AdapterKind where
  | mongo
  | redis
  | sql
deriving DecidableEq

/-- The family `get_adapter` instantiates for a connection descriptor:
`uri.startswith('mongo')` selects the document adapter, else
`'redis' in uri` (a substring test over the whole descriptor) selects the
key-value adapter, else the relational adapter. -/
def get_adapter_kind (uri : String) : AdapterKind :=
  if pyStartsWith uri "mongo" then .mongo
  else if pyIn "redis" uri then .redis
  else .sql

/-- The scheme of a URI-shaped descriptor: the text before the first
colon. -/
def schemeOf (uri : String) : String :=
  String.mk (uri.data.takeWhile (fun c => c ≠ ':'))

/-! ## Helper lemmas about the insertion-ordered dictionary model -/

theorem lookup_eq_none_of_notMem {α : Type} {d : List (String × α)} {k : String}
    (h : k ∉ d.map Prod.fst) : d.lookup k = none := by
  rw [List.lookup_eq_none_iff]
  intro p hp
  simp only [bne_iff_ne, ne_eq]
  intro hk
  exact h (hk ▸ List.mem_map_of_mem Prod.fst hp)

theorem lookup_delKey_self {α : Type} (d : List (String × α)) (k : String)
    (h : (d.map Prod.fst).Nodup) : (delKey d k).lookup k = none := by
  induction d with
  | nil => rfl
  | cons a t ih =>
    obtain ⟨a1, a2⟩ := a
    simp only [List.map_cons, List.nodup_cons] at h
    by_cases hk : a1 = k
    · subst hk
      simp only [delKey, List.eraseP_cons, beq_self_eq_true, cond_true]
      exact lookup_eq_none_of_notMem h.1
    · have hb : ((a1, a2).1 == k) = false := by simpa using hk
      simp only [delKey, List.eraseP_cons, hb, cond_false]
      rw [List.lookup_cons]
      have hb2 : (k == a1) = false := by simpa using Ne.symm hk
      simp only [hb2]
      simpa [delKey] using ih h.2

theorem lookup_delKey_ne {α : Type} (d : List (String × α)) (k k2 : String)
    (hne : k2 ≠ k) : (delKey d k).lookup k2 = d.lookup k2 := by
  induction d with
  | nil => rfl
  | cons a t ih =>
    obtain ⟨a1, a2⟩ := a
    by_cases hk : a1 = k
    · subst hk
      simp only [delKey, List.eraseP_cons, beq_self_eq_true, cond_true]
      rw [List.lookup_cons]
      have hb : (k2 == a1) = false := by simpa using hne
      simp only [hb]
    · have hb : ((a1, a2).1 == k) = false := by simpa using hk
      simp only [delKey, List.eraseP_cons, hb, cond_false]
      rw [List.lookup_cons, List.lookup_cons]
      cases h2 : (k2 == a1) with
      | true => rfl
      | false => simpa [delKey] using ih

theorem lookup_mapReplace {α : Type} (d : List (String × α)) (k : String) (v : α)
    (h : (d.lookup k).isSome) :
    (d.map (fun p => if p.1 = k then (k, v) else p)).lookup k = some v := by
  induction d with
  | nil => simp at h
  | cons a t ih =>
    obtain ⟨a1, a2⟩ := a
    by_cases hk : a1 = k
    · subst hk
      simp [List.lookup_cons]
    · have hb : (k == a1) = false := by simpa using Ne.symm hk
      rw [List.lookup_cons] at h
      simp only [hb] at h
      simp only [List.map_cons, if_neg hk]
      rw [List.lookup_cons]
      simp only [hb]
      exact ih h

theorem lookup_setKey_self {α : Type} (d : List (String × α)) (k : String)
    (v : α) : (setKey d k v).lookup k = some v := by
  unfold setKey
  by_cases h : (d.lookup k).isSome
  · rw [if_pos h]
    exact lookup_mapReplace d k v h
  · rw [if_neg h]
    rw [List.lookup_append]
    rw [Option.not_isSome_iff_eq_none] at h
    simp [h]

theorem lookup_mapReplace_ne {α : Type} (d : List (String × α)) (k k2 : String)
    (v : α) (hne : k2 ≠ k) :
    (d.map (fun p => if p.1 = k then (k, v) else p)).lookup k2 = d.lookup k2 := by
  induction d with
  | nil => rfl
  | cons a t ih =>
    obtain ⟨a1, a2⟩ := a
    by_cases hk : a1 = k
    · have hb1 : (k2 == k) = false := by simpa using hne
      have hb2 : (k2 == a1) = false := by simpa [hk] using hne
      simp only [List.map_cons, if_pos hk]
      rw [List.lookup_cons, List.lookup_cons]
      simp only [hb1, hb2]
      exact ih
    · simp only [List.map_cons, if_neg hk]
      rw [List.lookup_cons, List.lookup_cons]
      cases h2 : (k2 == a1) with
      | true => rfl
      | false => exact ih

theorem lookup_setKey_ne {α : Type} (d : List (String × α)) (k k2 : String)
    (v : α) (hne : k2 ≠ k) : (setKey d k v).lookup k2 = d.lookup k2 := by
  unfold setKey
  by_cases h : (d.lookup k).isSome
  · rw [if_pos h]
    exact lookup_mapReplace_ne d k k2 v hne
  · rw [if_neg h]
    rw [List.lookup_append]
    have hb : (k2 == k) = false := by simpa using hne
    simp [List.lookup_cons, hb]

theorem mem_setKey {α : Type} {d : List (String × α)} {k : String} {v : α}
    {p : String × α} (h : p ∈ setKey d k v) : p ∈ d ∨ p = (k, v) := by
  unfold setKey at h
  by_cases hs : (d.lookup k).isSome
  · rw [if_pos hs] at h
    obtain ⟨q, hq, hqe⟩ := List.mem_map.1 h
    by_cases hk : q.1 = k
    · right
      rw [if_pos hk] at hqe
      exact hqe.symm
    · left
      rw [if_neg hk] at hqe
      exact hqe ▸ hq
  · rw [if_neg hs] at h
    rcases List.mem_append.1 h with h1 | h1
    · exact Or.inl h1
    · exact Or.inr (by simpa using h1)

theorem hashUpsert_of_disjoint (m : List (String × String)) :
    ∀ acc, (m.map Prod.fst).Nodup →
      (∀ q ∈ m, acc.lookup q.1 = none) → hashUpsert acc m = acc ++ m := by
  induction m with
  | nil => intro acc _ _; simp [hashUpsert]
  | cons a t ih =>
    intro acc hnd hdisj
    obtain ⟨a1, a2⟩ := a
    simp only [List.map_cons, List.nodup_cons] at hnd
    have hl : acc.lookup a1 = none := hdisj (a1, a2) (List.mem_cons_self _ _)
    have hset : setKey acc a1 a2 = acc ++ [(a1, a2)] := by
      unfold setKey
      rw [hl]
      simp
    have hd2 : ∀ q ∈ t, (acc ++ [(a1, a2)]).lookup q.1 = none := by
      intro q hq
      rw [List.lookup_append, hdisj q (List.mem_cons_of_mem _ hq)]
      have hq1 : q.1 ≠ a1 := by
        intro he
        exact hnd.1 (he ▸ List.mem_map_of_mem Prod.fst hq)
      have hb : (q.1 == a1) = false := by simpa using hq1
      simp [List.lookup_cons, hb]
    calc hashUpsert acc ((a1, a2) :: t)
        = hashUpsert (setKey acc a1 a2) t := by simp [hashUpsert]
      _ = hashUpsert (acc ++ [(a1, a2)]) t := by rw [hset]
      _ = (acc ++ [(a1, a2)]) ++ t := ih (acc ++ [(a1, a2)]) hnd.2 hd2
      _ = acc ++ (a1, a2) :: t := by simp

theorem mapM_coerce_pyStr (l : List String) :
    (l.map PyObj.pyStr).mapM redisCoerceVal = Except.ok l := by
  induction l with
  | nil => rfl
  | cons a t ih =>
    rw [List.map_cons, List.mapM_cons, ih]
    rfl

theorem coerceMapping_strs (m : List (String × String)) :
    coerceMapping (m.map (fun p => (p.1, PyObj.pyStr p.2))) = Except.ok m := by
  induction m with
  | nil => rfl
  | cons a t ih =>
    simp only [coerceMapping] at ih ⊢
    rw [List.map_cons, List.mapM_cons, ih]
    rfl

/-! ## Claim C10 -/

/-- C10: for the key-value adapter, `dropGroup(name)` and
`dropItem(group, item)` both flush every key of the partition the adapter
is currently connected to, ignoring the name/group/item arguments entirely:
for any two argument values the resulting store state is identical, the two
operations coincide, the single virtual pseudo-item is `"Keys"`, and after a
drop no key resolves any more. -/
theorem C10_drop_ops_flush_current_partition :
    ∀ (st : RedisStore) (n1 n2 g1 g2 t1 t2 : String),
      RedisAdapter.drop_database st n1 = RedisAdapter.drop_database st n2 ∧
      RedisAdapter.drop_table st g1 t1 = RedisAdapter.drop_table st g2 t2 ∧
      RedisAdapter.drop_database st n1 = RedisAdapter.drop_table st g1 t1 ∧
      RedisAdapter.list_tables st g1 = ["Keys"] ∧
      (∀ k, (RedisAdapter.drop_table st g1 t1).lookup k = none) :=
  fun _ _ _ _ _ _ _ => ⟨rfl, rfl, rfl, rfl, fun _ => rfl⟩

/-! ## Claim C7 -/

/-- C7 counterexample: a key-value `saveRow` create whose payload lacks the
`key` field does NOT fail with a validation error — the key silently
defaults to the route's id argument (`data.get('key', id)`) and the write
is issued: starting from an empty store, the value lands under key
`"route-id"`. -/
theorem C7_missing_key_silently_defaulted :
    RedisAdapter.save_row [] "DB 0" "Keys" "route-id" [("value", .pyStr "v")]
      true = Except.ok [("route-id", RVal.rstr "v")] := rfl

/-- C7 amended: when the payload has no `key` field, the key silently
defaults to the route's id argument and the scalar write proceeds; no
validation error is raised. -/
theorem C7_amended_key_defaults_to_route_id :
    ∀ (st : RedisStore) (db table id : String) (data : List (String × PyObj))
      (s : String) (is_new : Bool),
      data.lookup "key" = none →
      data.lookup "value" = some (.pyStr s) →
      RedisAdapter.save_row st db table id data is_new
        = Except.ok (redisSet st id s) := by
  intro st db table id data s is_new h1 h2
  simp only [RedisAdapter.save_row, h1, h2, Option.getD_some, pyStrFn]

/-- Witness for C7: the amended behaviour at a concrete store and payload. -/
theorem C7_amended_key_defaults_to_route_id_witness :
    RedisAdapter.save_row [("x", RVal.rstr "1")] "DB 0" "Keys" "rid"
        [("value", .pyStr "hello")] false
      = Except.ok (redisSet [("x", RVal.rstr "1")] "rid" "hello") :=
  C7_amended_key_defaults_to_route_id [("x", RVal.rstr "1")] "DB 0" "Keys"
    "rid" [("value", .pyStr "hello")] "hello" false rfl rfl

/-! ## Claim C6 -/

/-- A postgresql engine whose catalog access is denied while the engine URL
is connected to database `mydb`. -/
def deniedPgCatalog : SQLAdapter.CatalogEngine :=
  { dialectName := "postgresql"
    urlDatabase := some "mydb"
    runCatalog := fun _ => .error "permission denied" }

/-- A mysql engine whose catalog access is denied. -/
def deniedMysqlCatalog : SQLAdapter.CatalogEngine :=
  { dialectName := "mysql"
    urlDatabase := some "appdb"
    runCatalog := fun _ => .error "permission denied" }

/-- C6 counterexample: when catalog access is denied on a postgresql
engine connected to database `mydb`, `list_databases` returns the literal
`["default"]`, not the currently-connected database name `["mydb"]`. -/
theorem C6_denied_catalog_falls_back_to_literal_default :
    SQLAdapter.list_databases deniedPgCatalog = ["default"] ∧
    deniedPgCatalog.urlDatabase = some "mydb" ∧
    ("default" : String) ≠ "mydb" :=
  ⟨rfl, rfl, by decide⟩

/-- C6 amended: `listGroups` enumerates databases via the dialect-specific
catalog statement (`pg_database` for postgresql, `SHOW DATABASES` for
mysql); whenever catalog access raises, it falls back to the fixed literal
one-element list `["default"]` — not to the currently-connected database
name. -/
theorem C6_amended_catalog_enumeration_and_default_fallback :
    ∀ (eng : SQLAdapter.CatalogEngine) (e : String) (l : List String),
      (eng.dialectName = "postgresql" →
        (eng.runCatalog SQLAdapter.pgCatalogStmt = .error e →
          SQLAdapter.list_databases eng = ["default"]) ∧
        (eng.runCatalog SQLAdapter.pgCatalogStmt = .ok l →
          SQLAdapter.list_databases eng = pySortedRev false l)) ∧
      (eng.dialectName = "mysql" →
        (eng.runCatalog SQLAdapter.mysqlCatalogStmt = .error e →
          SQLAdapter.list_databases eng = ["default"]) ∧
        (eng.runCatalog SQLAdapter.mysqlCatalogStmt = .ok l →
          SQLAdapter.list_databases eng = pySortedRev false l)) := by
  intro eng e l
  constructor
  · intro hd
    unfold SQLAdapter.list_databases
    rw [hd]
    rw [if_pos rfl]
    exact ⟨fun hc => by rw [hc], fun hc => by rw [hc]⟩
  · intro hd
    unfold SQLAdapter.list_databases
    rw [hd]
    rw [if_neg (by decide : ¬ ("mysql" : String) = "postgresql"), if_pos rfl]
    exact ⟨fun hc => by rw [hc], fun hc => by rw [hc]⟩

/-- Witness for C6: both denied-catalog engines fall back to
`["default"]`. -/
theorem C6_amended_witness :
    SQLAdapter.list_databases deniedPgCatalog = ["default"] ∧
    SQLAdapter.list_databases deniedMysqlCatalog = ["default"] :=
  ⟨((C6_amended_catalog_enumeration_and_default_fallback deniedPgCatalog
      "permission denied" []).1 rfl).1 rfl,
   ((C6_amended_catalog_enumeration_and_default_fallback deniedMysqlCatalog
      "permission denied" []).2 rfl).1 rfl⟩

/-! ## Claim C8 -/

/-- C8 counterexample: two descriptors with the identical relational scheme
`postgresql` select different adapter families, because the key-value check
is `'redis' in uri` over the whole descriptor: a postgresql URI whose host
contains `redis` selects the key-value adapter. -/
theorem C8_host_content_changes_family :
    schemeOf "postgresql://app@redis-cache.internal/db"
      = schemeOf "postgresql://app@pg.internal/db" ∧
    get_adapter_kind "postgresql://app@redis-cache.internal/db"
      = .redis ∧
    get_adapter_kind "postgresql://app@pg.internal/db" = .sql :=
  ⟨rfl, rfl, rfl⟩

/-- C8 amended: the family is chosen by prefix/substring sniffing over the
whole descriptor, not by the scheme alone: a descriptor starting with
`mongo` selects the document adapter whatever follows; otherwise any
occurrence of `redis` anywhere in the descriptor (host, path, credentials)
selects the key-value adapter; otherwise the relational adapter is
selected. -/
theorem C8_amended_prefix_and_substring_sniffing :
    (∀ rest : String, get_adapter_kind ("mongodb://" ++ rest) = .mongo) ∧
    (∀ uri : String, pyStartsWith uri "mongo" = false →
      pyIn "redis" uri = true → get_adapter_kind uri = .redis) ∧
    (∀ uri : String, pyStartsWith uri "mongo" = false →
      pyIn "redis" uri = false → get_adapter_kind uri = .sql) := by
  refine ⟨?_, ?_, ?_⟩
  · intro rest
    have h : "mongo".data <+: ("mongodb://" ++ rest).data := by
      rw [String.data_append]
      exact List.IsPrefix.trans (by decide) (List.prefix_append _ _)
    unfold get_adapter_kind pyStartsWith
    rw [decide_eq_true h]
    rfl
  · intro uri h1 h2
    unfold get_adapter_kind
    rw [h1, h2]
    rfl
  · intro uri h1 h2
    unfold get_adapter_kind
    rw [h1, h2]
    rfl

/-- Witness for C8: the three sniffing branches at concrete descriptors. -/
theorem C8_amended_witness :
    get_adapter_kind ("mongodb://" ++ "cluster0.example.net/app") = .mongo ∧
    get_adapter_kind "postgresql://user@redis.example.com/db" = .redis ∧
    get_adapter_kind "postgresql://user@pg.example.com/db" = .sql :=
  ⟨C8_amended_prefix_and_substring_sniffing.1 "cluster0.example.net/app",
   C8_amended_prefix_and_substring_sniffing.2.1
     "postgresql://user@redis.example.com/db" rfl rfl,
   C8_amended_prefix_and_substring_sniffing.2.2
     "postgresql://user@pg.example.com/db" rfl rfl⟩

/-! ## Claim C1 -/

/-- An engine that (like a live backend) rejects the page statement when
the injected text has been interpolated into it. -/
def strictOrderByEngine : SQLEngine :=
  { dialect := "postgresql"
    execScalar := fun _ _ => .ok 0
    execQuery := fun stmt _ =>
      if pyIn "DROP TABLE" stmt then .error "ProgrammingError" else .ok [] }

/-- C1: `SQLAdapter.get_rows` performs no validation of the caller-supplied
sort field against the introspected column list.  At the spec's own failing
input (columns `{a,b,c}` are never even consulted; the introspected primary
key is `id`), the sort field `"; DROP TABLE x"` is taken verbatim instead
of falling back to the primary key, the injected text is interpolated into
the `ORDER BY` clause of the issued statement, and against an engine that
rejects that statement the call errors instead of falling back. -/
theorem C1_sort_field_interpolated_unvalidated :
    SQLAdapter.sortField (some "; DROP TABLE x") "id" = "; DROP TABLE x" ∧
    SQLAdapter.rowsStmt "users" "" "; DROP TABLE x" "desc" 0
      = "SELECT * FROM users  ORDER BY ; DROP TABLE x DESC LIMIT 50 OFFSET 0" ∧
    SQLAdapter.get_rows strictOrderByEngine (some ["id"]) "db" "users" 1 none
      (some "; DROP TABLE x") "desc" = .error "ProgrammingError" :=
  ⟨rfl, rfl, rfl⟩

/-! ## Claim C2 -/

/-- C2 counterexample: on a relational update whose payload contains the
primary-key column `id`, `SQLAdapter.save_row` does not strip it — the
column survives into the bound parameters and into the `SET` list of the
issued `UPDATE` statement, so the row identifier is client-writable. -/
theorem C2_pk_column_not_stripped_on_update :
    (SQLAdapter.save_row_stmt (some ["id"]) "users" "5"
        [("id", .pyInt 7), ("name", .pyStr "Ada")] false).2.lookup "id"
      = some (.pyInt 7) ∧
    (SQLAdapter.save_row_stmt (some ["id"]) "users" "5"
        [("id", .pyInt 7), ("name", .pyStr "Ada")] false).1
      = "UPDATE users SET id=:id, name=:name WHERE id = :pk_val" :=
  ⟨rfl, rfl⟩

/-- C2 amended: only the derived `__id` display field is stripped by the
relational `saveRow` (the primary-key column itself is preserved in the
write payload, on insert and update alike), and only `_id` is stripped by
the document `saveRow`, and only on replace — an insert passes the payload
through untouched. -/
theorem C2_amended_only_derived_fields_stripped :
    (∀ (pkI : Option (List String)) (table id : String)
        (data : List (String × PyObj)) (is_new : Bool),
      (data.map Prod.fst).Nodup →
      (SQLAdapter.save_row_stmt pkI table id data is_new).2.lookup "__id"
          = none ∧
      (∀ k, k ≠ "__id" → k ≠ "pk_val" →
        (SQLAdapter.save_row_stmt pkI table id data is_new).2.lookup k
          = data.lookup k)) ∧
    (∀ (id : String) (data : List (String × PyObj)),
      (data.map Prod.fst).Nodup →
      (MongoAdapter.writeDoc
          (MongoAdapter.save_row_write id data false)).lookup "_id" = none ∧
      (∀ k, k ≠ "_id" →
        (MongoAdapter.writeDoc
          (MongoAdapter.save_row_write id data false)).lookup k
          = data.lookup k)) ∧
    (∀ (id : String) (data : List (String × PyObj)),
      MongoAdapter.save_row_write id data true = .insertOne data) := by
  have hstrip : ∀ (data : List (String × PyObj)),
      (data.map Prod.fst).Nodup →
      (if (data.lookup "__id").isSome then delKey data "__id" else data).lookup
          "__id" = none := by
    intro data hnd
    by_cases h : (data.lookup "__id").isSome
    · rw [if_pos h]
      exact lookup_delKey_self data "__id" hnd
    · rw [if_neg h]
      exact Option.not_isSome_iff_eq_none.1 h
  have hkeep : ∀ (data : List (String × PyObj)) (k : String), k ≠ "__id" →
      (if (data.lookup "__id").isSome then delKey data "__id" else data).lookup
          k = data.lookup k := by
    intro data k hk
    by_cases h : (data.lookup "__id").isSome
    · rw [if_pos h]
      exact lookup_delKey_ne data "__id" k hk
    · rw [if_neg h]
  refine ⟨?_, ?_, ?_⟩
  · intro pkI table id data is_new hnd
    unfold SQLAdapter.save_row_stmt
    cases is_new with
    | true =>
      simp only [if_pos]
      exact ⟨hstrip data hnd, fun k hk _ => hkeep data k hk⟩
    | false =>
      simp only [Bool.false_eq_true, if_neg, if_false]
      constructor
      · rw [List.lookup_append, hstrip data hnd]
        rfl
      · intro k hk hk2
        rw [List.lookup_append, hkeep data k hk]
        have hb : (k == "pk_val") = false := by simpa using hk2
        simp [List.lookup_cons, hb]
  · intro id data hnd
    unfold MongoAdapter.save_row_write
    simp only [Bool.false_eq_true, if_false, MongoAdapter.writeDoc]
    have hstrip2 : (if (data.lookup "_id").isSome then delKey data "_id"
        else data).lookup "_id" = none := by
      by_cases h : (data.lookup "_id").isSome
      · rw [if_pos h]
        exact lookup_delKey_self data "_id" hnd
      · rw [if_neg h]
        exact Option.not_isSome_iff_eq_none.1 h
    have hkeep2 : ∀ k, k ≠ "_id" →
        (if (data.lookup "_id").isSome then delKey data "_id"
          else data).lookup k = data.lookup k := by
      intro k hk
      by_cases h : (data.lookup "_id").isSome
      · rw [if_pos h]
        exact lookup_delKey_ne data "_id" k hk
      · rw [if_neg h]
    exact ⟨hstrip2, hkeep2⟩
  · intro id data
    rfl

/-- Witness for C2: the amended stripping behaviour at concrete payloads
containing `__id` (relational) and `_id` (document). -/
theorem C2_amended_witness :
    (SQLAdapter.save_row_stmt (some ["id"]) "users" "5"
        [("__id", .pyStr "5"), ("name", .pyStr "Ada")] false).2.lookup "__id"
      = none ∧
    (MongoAdapter.writeDoc (MongoAdapter.save_row_write "k1"
        [("_id", .pyStr "x"), ("name", .pyStr "Ada")] false)).lookup "_id"
      = none :=
  ⟨(C2_amended_only_derived_fields_stripped.1 (some ["id"]) "users" "5"
      [("__id", .pyStr "5"), ("name", .pyStr "Ada")] false (by decide)).1,
   (C2_amended_only_derived_fields_stripped.2.1 "k1"
      [("_id", .pyStr "x"), ("name", .pyStr "Ada")] (by decide)).1⟩

/-! ## Claim C3 -/

/-- An engine for which both the count and the page query raise (as a live
dialect does when the generated search predicate is unsupported — both
statements carry the same `WHERE` clause). -/
def failingPredicateEngine : SQLEngine :=
  { dialect := "postgresql"
    execScalar := fun _ _ => .error "unsupported predicate"
    execQuery := fun _ _ => .error "unsupported predicate" }

/-- An engine on which only the count query fails while the page query
succeeds with no rows. -/
def countOnlyFailEngine : SQLEngine :=
  { dialect := "postgresql"
    execScalar := fun _ _ => .error "count failed"
    execQuery := fun _ _ => .ok [] }

/-- C3 counterexample: when the search predicate fails against the live
dialect, the page query (which carries the same `WHERE` clause as the
count) raises, and `get_rows` propagates the error instead of completing
with an empty row list and zero total. -/
theorem C3_row_query_failure_propagates :
    SQLAdapter.get_rows failingPredicateEngine (some ["id"]) "db" "users" 1
      (some "term") none "desc" = .error "unsupported predicate" := rfl

/-- C3 amended: a count failure alone is absorbed — the total degrades to
`0` and the page read completes with the fetched rows; but a failure of
the page query itself propagates to the caller as an error. -/
theorem C3_amended_count_degrades_row_failure_raises :
    (∀ (eng : SQLEngine) (pkI : Option (List String)) (db table : String)
        (page : Int) (search sort_col : Option String) (sort_dir e : String)
        (rs : List (List (String × PyObj))),
      eng.execScalar
          (SQLAdapter.countStmt table
            (SQLAdapter.searchClause eng.dialect (SQLAdapter.get_pk pkI)
              table search).1)
          (SQLAdapter.searchClause eng.dialect (SQLAdapter.get_pk pkI)
            table search).2 = .error e →
      eng.execQuery
          (SQLAdapter.rowsStmt table
            (SQLAdapter.searchClause eng.dialect (SQLAdapter.get_pk pkI)
              table search).1
            (SQLAdapter.sortField sort_col (SQLAdapter.get_pk pkI)) sort_dir
            ((page - 1) * (ROWS_PER_PAGE : Int)))
          (SQLAdapter.searchClause eng.dialect (SQLAdapter.get_pk pkI)
            table search).2 = .ok rs →
      SQLAdapter.get_rows eng pkI db table page search sort_col sort_dir
        = .ok (rs.map (SQLAdapter.decorateRow (SQLAdapter.get_pk pkI)), 0)) ∧
    (∀ (eng : SQLEngine) (pkI : Option (List String)) (db table : String)
        (page : Int) (search sort_col : Option String) (sort_dir e2 : String),
      eng.execQuery
          (SQLAdapter.rowsStmt table
            (SQLAdapter.searchClause eng.dialect (SQLAdapter.get_pk pkI)
              table search).1
            (SQLAdapter.sortField sort_col (SQLAdapter.get_pk pkI)) sort_dir
            ((page - 1) * (ROWS_PER_PAGE : Int)))
          (SQLAdapter.searchClause eng.dialect (SQLAdapter.get_pk pkI)
            table search).2 = .error e2 →
      SQLAdapter.get_rows eng pkI db table page search sort_col sort_dir
        = .error e2) := by
  constructor
  · intro eng pkI db table page search sort_col sort_dir e rs h1 h2
    simp only [SQLAdapter.get_rows]
    rw [h1, h2]
  · intro eng pkI db table page search sort_col sort_dir e2 h2
    simp only [SQLAdapter.get_rows]
    rw [h2]

/-- Witness for C3: the amended behaviour at concrete engines — a count
failure alone yields `([], 0)`, a page-query failure propagates. -/
theorem C3_amended_witness :
    SQLAdapter.get_rows countOnlyFailEngine (some ["id"]) "db" "users" 1
        (some "term") none "desc" = .ok ([], 0) ∧
    SQLAdapter.get_rows failingPredicateEngine (some ["id"]) "db" "users" 2
        (some "term") none "desc" = .error "unsupported predicate" :=
  ⟨C3_amended_count_degrades_row_failure_raises.1 countOnlyFailEngine
      (some ["id"]) "db" "users" 1 (some "term") none "desc" "count failed"
      [] rfl rfl,
   C3_amended_count_degrades_row_failure_raises.2 failingPredicateEngine
      (some ["id"]) "db" "users" 2 (some "term") none "desc"
      "unsupported predicate" rfl⟩

/-! ## Claim C5 -/

/-- Does a value expose a raw byte blob at the top level? -/
def isBytesCell : PyObj → Bool
  | .pyBytes _ => true
  | _ => false

/-- Does a value expose a calendar/time representation at the top level? -/
def isDatetimeCell : PyObj → Bool
  | .pyDatetime _ => true
  | _ => false

theorem serializeCell_clean (v : PyObj) :
    isBytesCell (SQLAdapter.serializeCell v) = false ∧
    isDatetimeCell (SQLAdapter.serializeCell v) = false := by
  cases v <;> exact ⟨rfl, rfl⟩

theorem serializeCellGetRow_no_datetime (v : PyObj) :
    isDatetimeCell (SQLAdapter.serializeCellGetRow v) = false := by
  cases v <;> rfl

theorem decorateRow_clean (pk : String) (r : List (String × PyObj)) :
    ∀ kv ∈ SQLAdapter.decorateRow pk r,
      isBytesCell kv.2 = false ∧ isDatetimeCell kv.2 = false := by
  intro kv hkv
  unfold SQLAdapter.decorateRow at hkv
  rcases mem_setKey hkv with h2 | h2
  · rcases mem_setKey h2 with h3 | h3
    · obtain ⟨q, _, hq⟩ := List.mem_map.1 h3
      rw [← hq]
      exact serializeCell_clean q.2
    · rw [h3]
      exact ⟨rfl, rfl⟩
  · rw [h2]
    exact ⟨rfl, rfl⟩

/-- An engine whose single row carries a raw byte blob. -/
def bytesRowEngine : SQLEngine :=
  { dialect := "postgresql"
    execScalar := fun _ _ => .ok 1
    execQuery := fun _ _ => .ok [[("id", .pyInt 1), ("blob", .pyBytes [0, 255])]] }

/-- C5 counterexample: `SQLAdapter.get_row` applies only the `isoformat`
conversion — a raw byte-blob value is returned as-is, not replaced by the
`"<binary>"` placeholder token. -/
theorem C5_get_row_returns_raw_bytes :
    SQLAdapter.get_row bytesRowEngine (some ["id"]) "db" "files" "1"
      = .ok (some [("id", .pyInt 1), ("blob", .pyBytes [0, 255])]) ∧
    isBytesCell (PyObj.pyBytes [0, 255]) = true :=
  ⟨rfl, rfl⟩

/-- C5 amended: every value of every row returned by `listRows` passes
through the full codec (no datetime and no raw byte blob ever leaves it),
but `getRow` applies only the datetime conversion — byte blobs pass through
that path unchanged. -/
theorem C5_amended_codec_full_on_list_partial_on_get :
    (∀ (eng : SQLEngine) (pkI : Option (List String)) (db table : String)
        (page : Int) (search sort_col : Option String) (sort_dir : String)
        (rows : List (List (String × PyObj))) (total : Int),
      SQLAdapter.get_rows eng pkI db table page search sort_col sort_dir
        = .ok (rows, total) →
      ∀ r ∈ rows, ∀ kv ∈ r,
        isBytesCell kv.2 = false ∧ isDatetimeCell kv.2 = false) ∧
    (∀ (eng : SQLEngine) (pkI : Option (List String)) (db table id : String)
        (r : List (String × PyObj)),
      SQLAdapter.get_row eng pkI db table id = .ok (some r) →
      ∀ kv ∈ r, isDatetimeCell kv.2 = false) := by
  constructor
  · intro eng pkI db table page search sort_col sort_dir rows total h
    simp only [SQLAdapter.get_rows] at h
    split at h
    · exact absurd h (by simp)
    · simp only [Except.ok.injEq, Prod.mk.injEq] at h
      obtain ⟨hrows, -⟩ := h
      subst hrows
      intro r hr kv hkv
      obtain ⟨r0, _, hr0⟩ := List.mem_map.1 hr
      exact decorateRow_clean _ r0 kv (hr0 ▸ hkv)
  · intro eng pkI db table id r h
    simp only [SQLAdapter.get_row] at h
    split at h
    · exact absurd h (by simp)
    · exact absurd h (by simp)
    · simp only [Except.ok.injEq, Option.some.injEq] at h
      subst h
      intro kv hkv
      obtain ⟨q, _, hq⟩ := List.mem_map.1 hkv
      rw [← hq]
      exact serializeCellGetRow_no_datetime q.2

/-- Witness for C5: the amended codec behaviour applied at concrete
engines — the blob cell leaves `listRows` as the `"<binary>"` placeholder,
and a cell read back through `getRow` carries no datetime. -/
theorem C5_amended_witness :
    (isBytesCell ("blob", PyObj.pyStr "<binary>").2 = false ∧
      isDatetimeCell ("blob", PyObj.pyStr "<binary>").2 = false) ∧
    isDatetimeCell ("id", PyObj.pyInt 1).2 = false :=
  ⟨C5_amended_codec_full_on_list_partial_on_get.1 bytesRowEngine (some ["id"])
      "db" "files" 1 none none "desc"
      [SQLAdapter.decorateRow "id" [("id", .pyInt 1), ("blob", .pyBytes [0, 255])]]
      1 rfl
      (SQLAdapter.decorateRow "id" [("id", .pyInt 1), ("blob", .pyBytes [0, 255])])
      (List.Mem.head _)
      ("blob", PyObj.pyStr "<binary>")
      (List.Mem.tail _ (List.Mem.head _)),
   C5_amended_codec_full_on_list_partial_on_get.2 bytesRowEngine (some ["id"])
      "db" "files" "1" [("id", .pyInt 1), ("blob", .pyBytes [0, 255])] rfl
      ("id", PyObj.pyInt 1) (List.Mem.head _)⟩

/-! ## Claim C4 -/

/-- C4 counterexample: the key-value `saveRow` of a map payload is NOT a
destructive rewrite — `HSET` merges field-wise into the existing hash, so
with prior state `k ↦ hash {b: 2}`, writing value `{a: 1}` and re-reading
yields the hash `{b: 2, a: 1}` with the leftover field `b`, not exactly
`{a: 1}`. -/
theorem C4_hash_write_keeps_leftover_fields :
    (RedisAdapter.save_row [("k", RVal.rhash [("b", "2")])] "DB 0" "Keys" "k"
        [("key", .pyStr "k"), ("value", .pyDict [("a", .pyStr "1")])]
        false).map
      (fun st2 => RedisAdapter.get_row st2 "DB 0" "Keys" "k")
      = Except.ok (some { key := "k"
                          type := "hash"
                          value := .oMap [("b", "2"), ("a", "1")] }) ∧
    RedisAdapter.RValOut.oMap [("b", "2"), ("a", "1")]
      ≠ RedisAdapter.RValOut.oMap [("a", "1")] :=
  ⟨rfl, by decide⟩

/-- C4 amended: the map-payload write merges field-wise into any existing
hash (leftover fields persist; it equals the payload exactly only when the
key was previously absent), while the list-payload write is destructive for
every prior state — the key is deleted first, so re-reading returns exactly
the ordered list. -/
theorem C4_amended_hash_merges_list_destructive :
    (∀ (st : RedisStore) (db t k : String) (m : List (String × String)),
      st.lookup k = none → (m.map Prod.fst).Nodup →
      (RedisAdapter.save_row st db t k
          [("key", .pyStr k),
           ("value", .pyDict (m.map (fun p => (p.1, PyObj.pyStr p.2))))]
          false).map
        (fun st2 => RedisAdapter.get_row st2 db t k)
        = Except.ok (some { key := k, type := "hash", value := .oMap m })) ∧
    (∀ (st : RedisStore) (db t k : String) (l : List String),
      l ≠ [] → (st.map Prod.fst).Nodup →
      (RedisAdapter.save_row st db t k
          [("key", .pyStr k), ("value", .pyList (l.map PyObj.pyStr))]
          false).map
        (fun st2 => RedisAdapter.get_row st2 db t k)
        = Except.ok (some { key := k, type := "list", value := .oList l })) := by
  constructor
  · intro st db t k m hnone hnd
    have hlk : List.lookup "key"
        [("key", PyObj.pyStr k),
         ("value", PyObj.pyDict (m.map (fun p => (p.1, PyObj.pyStr p.2))))]
        = some (.pyStr k) := rfl
    have hlv : List.lookup "value"
        [("key", PyObj.pyStr k),
         ("value", PyObj.pyDict (m.map (fun p => (p.1, PyObj.pyStr p.2))))]
        = some (.pyDict (m.map (fun p => (p.1, PyObj.pyStr p.2)))) := rfl
    have hm : hashUpsert [] m = m := by
      simpa using hashUpsert_of_disjoint m [] hnd (fun q _ => rfl)
    simp only [RedisAdapter.save_row, hlk, hlv, Option.getD_some, pyStrFn]
    simp only [redisHSet, coerceMapping_strs m, hnone, hm]
    simp only [Except.map]
    simp only [RedisAdapter.get_row, lookup_setKey_self]
  · intro st db t k l hne hnd
    have hlk : List.lookup "key"
        [("key", PyObj.pyStr k), ("value", PyObj.pyList (l.map PyObj.pyStr))]
        = some (.pyStr k) := rfl
    have hlv : List.lookup "value"
        [("key", PyObj.pyStr k), ("value", PyObj.pyList (l.map PyObj.pyStr))]
        = some (.pyList (l.map PyObj.pyStr)) := rfl
    have hemp : (l.map PyObj.pyStr).isEmpty = false := by
      cases l with
      | nil => exact absurd rfl hne
      | cons a t2 => rfl
    have hdel : (redisDelete st k).lookup k = none := by
      have : redisDelete st k = delKey st k := rfl
      rw [this]
      exact lookup_delKey_self st k hnd
    simp only [RedisAdapter.save_row, hlk, hlv, Option.getD_some, pyStrFn]
    simp only [redisRPush, hemp, mapM_coerce_pyStr l, hdel]
    simp only [Bool.false_eq_true, if_false, Except.map]
    simp only [RedisAdapter.get_row, lookup_setKey_self]

/-- Witness for C4: the amended behaviour at concrete stores — a map write
into an absent key reads back exactly as the payload hash, and a list write
over a prior string value reads back as exactly the ordered list. -/
theorem C4_amended_witness :
    (RedisAdapter.save_row [] "DB 0" "Keys" "k"
        [("key", .pyStr "k"), ("value", .pyDict [("a", .pyStr "1")])]
        false).map
      (fun st2 => RedisAdapter.get_row st2 "DB 0" "Keys" "k")
      = Except.ok (some { key := "k"
                          type := "hash"
                          value := .oMap [("a", "1")] }) ∧
    (RedisAdapter.save_row [("k", RVal.rstr "old")] "DB 0" "Keys" "k"
        [("key", .pyStr "k"), ("value", .pyList [.pyStr "x", .pyStr "y"])]
        false).map
      (fun st2 => RedisAdapter.get_row st2 "DB 0" "Keys" "k")
      = Except.ok (some { key := "k"
                          type := "list"
                          value := .oList ["x", "y"] }) :=
  ⟨C4_amended_hash_merges_list_destructive.1 [] "DB 0" "Keys" "k" [("a", "1")]
      rfl (by decide),
   C4_amended_hash_merges_list_destructive.2 [("k", RVal.rstr "old")] "DB 0"
      "Keys" "k" ["x", "y"] (by decide) (by decide)⟩

/-! ## Claim C9 -/

theorem pySlice_length_le {α : Type} (l : List α) (a : Int) (n : Nat)
    (h0 : 0 ≤ a) : (pySlice l a (a + n)).length ≤ n := by
  simp only [pySlice]
  rw [if_neg (not_lt.2 h0), if_neg (by omega : ¬ a + (n : Int) < 0)]
  refine le_trans (List.length_take_le _ _) ?_
  rcases le_total a (l.length : Int) with hal | hal
  · rw [min_eq_left hal]
    rcases le_total (a + (n : Int)) (l.length : Int) with han | han
    · rw [min_eq_left han]
      omega
    · rw [min_eq_right han]
      omega
  · rw [min_eq_right hal, min_eq_right (by omega : (l.length : Int) ≤ a + n)]
    omega

theorem pySlice_next_disjoint {α : Type} (l : List α) (hnd : l.Nodup)
    (a : Int) (n : Nat) (h0 : 0 ≤ a) :
    ∀ x ∈ pySlice l a (a + n), x ∉ pySlice l (a + n) (a + n + n) := by
  intro x hx hx2
  simp only [pySlice] at hx hx2
  rw [if_neg (not_lt.2 h0), if_neg (by omega : ¬ a + (n : Int) < 0)] at hx
  rw [if_neg (by omega : ¬ a + (n : Int) < 0),
      if_neg (by omega : ¬ a + (n : Int) + (n : Int) < 0)] at hx2
  have hm1 : 0 ≤ min a (l.length : Int) := le_min h0 (Int.natCast_nonneg _)
  have hm12 : min a (l.length : Int) ≤ min (a + (n : Int)) (l.length : Int) :=
    min_le_min (by omega) le_rfl
  generalize hg1 : min a (l.length : Int) = m1 at hx hm1 hm12
  generalize hg2 : min (a + (n : Int)) (l.length : Int) = m2 at hx hx2 hm12
  have hsplit : l.drop m1.toNat
      = (l.drop m1.toNat).take (m2 - m1).toNat ++ l.drop m2.toNat := by
    have harith : m1.toNat + (m2 - m1).toNat = m2.toNat := by omega
    conv_lhs => rw [← List.take_append_drop ((m2 - m1).toNat) (l.drop m1.toNat)]
    rw [List.drop_drop, harith]
  have hnd2 : (l.drop m1.toNat).Nodup := (List.drop_sublist _ _).nodup hnd
  rw [hsplit] at hnd2
  exact List.disjoint_of_nodup_append hnd2 hx (List.take_subset _ _ hx2)

theorem matchedKeys_nodup (st : RedisStore) (search : Option String)
    (h : (st.map Prod.fst).Nodup) :
    (RedisAdapter.matchedKeys st search).Nodup := by
  unfold RedisAdapter.matchedKeys
  cases search with
  | none => exact h
  | some s =>
    by_cases hs : s = ""
    · simpa [hs] using h
    · simpa [hs] using List.Nodup.filter _ h

theorem pySortedRev_nodup (rev : Bool) (l : List String) (h : l.Nodup) :
    (pySortedRev rev l).Nodup := by
  unfold pySortedRev
  have hp : (l.mergeSort (fun a b => decide (a ≤ b))).Nodup :=
    (List.mergeSort_perm l _).nodup_iff.mpr h
  cases rev with
  | true => simpa [List.nodup_reverse] using hp
  | false => simpa using hp

theorem pySlice_map {α β : Type} (f : α → β) (l : List α) (a b : Int) :
    pySlice (l.map f) a b = (pySlice l a b).map f := by
  simp only [pySlice, List.length_map, List.map_take, List.map_drop]

/-- Two consecutive 50-row pages of one fixed ordered result set carry
disjoint identifier projections, whenever the projection over the full
result is duplicate-free. -/
theorem slice_pages_id_disjoint {α : Type} (l : List α) (f : α → String)
    (page : Int) (hpage : 1 ≤ page) (hnd : (l.map f).Nodup) :
    ∀ x ∈ pySlice l ((page - 1) * (ROWS_PER_PAGE : Int))
        ((page - 1) * (ROWS_PER_PAGE : Int) + (ROWS_PER_PAGE : Int)),
      ∀ y ∈ pySlice l ((page + 1 - 1) * (ROWS_PER_PAGE : Int))
          ((page + 1 - 1) * (ROWS_PER_PAGE : Int) + (ROWS_PER_PAGE : Int)),
        f x ≠ f y := by
  intro x hx y hy heq
  have hstart : 0 ≤ (page - 1) * ((ROWS_PER_PAGE : Nat) : Int) := by
    rw [show ((ROWS_PER_PAGE : Nat) : Int) = 50 from rfl]
    omega
  have hx2 : f x ∈ pySlice (l.map f) ((page - 1) * (ROWS_PER_PAGE : Int))
      ((page - 1) * (ROWS_PER_PAGE : Int) + (ROWS_PER_PAGE : Int)) := by
    rw [pySlice_map]
    exact List.mem_map_of_mem f hx
  have hy2 : f y ∈ pySlice (l.map f) ((page + 1 - 1) * (ROWS_PER_PAGE : Int))
      ((page + 1 - 1) * (ROWS_PER_PAGE : Int) + (ROWS_PER_PAGE : Int)) := by
    rw [pySlice_map]
    exact List.mem_map_of_mem f hy
  rw [show (page + 1 - 1) * ((ROWS_PER_PAGE : Nat) : Int)
      = (page - 1) * ((ROWS_PER_PAGE : Nat) : Int) + ((ROWS_PER_PAGE : Nat) : Int)
      from by ring] at hy2
  rw [heq] at hx2
  exact pySlice_next_disjoint (l.map f) hnd _ ROWS_PER_PAGE hstart (f y) hx2 hy2

/-- The normalized identifier `str(d.get(pk))` a relational row is given
after the codec pass of `SQLAdapter.get_rows`. -/
def SQLAdapter.rowId (pk : String) (r : List (String × PyObj)) : String :=
  pyStrFn (((r.map (fun p => (p.1, SQLAdapter.serializeCell p.2))).lookup
    pk).getD .pyNone)

theorem decorateRow_lookup_id (pk : String) (r : List (String × PyObj)) :
    (SQLAdapter.decorateRow pk r).lookup "__id"
      = some (.pyStr (SQLAdapter.rowId pk r)) := by
  unfold SQLAdapter.decorateRow SQLAdapter.rowId
  rw [lookup_setKey_ne _ _ _ _ (by decide), lookup_setKey_self]

theorem decorateDoc_lookup_id (d : List (String × PyObj)) :
    (MongoAdapter.decorateDoc d).lookup "__id"
      = some (.pyStr (MongoAdapter.rowId d)) := by
  unfold MongoAdapter.decorateDoc
  rw [lookup_setKey_ne _ _ _ _ (by decide), lookup_setKey_self]

/-- The `LIMIT/OFFSET` contract of a live relational engine (the server is
external to src/; this is its documented pagination semantics): for the
fixed query shape — table, where-clause, sort field and direction —
executing the page statement built with offset `off` returns the slice
`[off, off + ROWS_PER_PAGE)` of one fixed ordered result set. -/
def SQLEngine.honorsLimitOffset (eng : SQLEngine) (pk table : String)
    (search : Option String) (sf sd : String)
    (ordered : List (List (String × PyObj))) : Prop :=
  ∀ off : Int,
    eng.execQuery
        (SQLAdapter.rowsStmt table
          (SQLAdapter.searchClause eng.dialect pk table search).1 sf sd off)
        (SQLAdapter.searchClause eng.dialect pk table search).2
      = .ok (pySlice ordered off (off + (ROWS_PER_PAGE : Int)))

/-- The key-value page bound and cross-page disjointness. -/
theorem c9_redis :
    ∀ (st : RedisStore) (db t : String) (page : Int)
      (search : Option String) (sc : Option String) (sd : String),
      (st.map Prod.fst).Nodup → 1 ≤ page →
      ((RedisAdapter.get_rows st db t page search sc sd).1.length
          ≤ ROWS_PER_PAGE ∧
        ∀ r1 ∈ (RedisAdapter.get_rows st db t page search sc sd).1,
        ∀ r2 ∈ (RedisAdapter.get_rows st db t (page + 1) search sc sd).1,
          r1.__id ≠ r2.__id) := by
  intro st db t page search sc sd hnd hpage
  have hknd : (pySortedRev (sd = "desc")
      (RedisAdapter.matchedKeys st search)).Nodup :=
    pySortedRev_nodup _ _ (matchedKeys_nodup st search hnd)
  have hstart : 0 ≤ (page - 1) * ((ROWS_PER_PAGE : Nat) : Int) := by
    rw [show ((ROWS_PER_PAGE : Nat) : Int) = 50 from rfl]
    omega
  constructor
  · simp only [RedisAdapter.get_rows]
    rw [List.length_map]
    exact pySlice_length_le _ _ ROWS_PER_PAGE hstart
  · simp only [RedisAdapter.get_rows]
    intro r1 hr1 r2 hr2
    obtain ⟨k1, hk1, hk1e⟩ := List.mem_map.1 hr1
    obtain ⟨k2, hk2, hk2e⟩ := List.mem_map.1 hr2
    have hid1 : r1.__id = k1 := by rw [← hk1e]
    have hid2 : r2.__id = k2 := by rw [← hk2e]
    rw [hid1, hid2]
    intro heq
    subst heq
    have hc1 : (page + 1 - 1) * ((ROWS_PER_PAGE : Nat) : Int)
        = (page - 1) * ((ROWS_PER_PAGE : Nat) : Int)
          + ((ROWS_PER_PAGE : Nat) : Int) := by ring
    rw [hc1] at hk2
    exact pySlice_next_disjoint _ hknd _ ROWS_PER_PAGE hstart k1 hk1 hk2

/-- The relational page bound and cross-page disjointness, under the
engine's `LIMIT/OFFSET` contract and duplicate-free normalized primary
keys over the ordered result set. -/
theorem c9_sql :
    ∀ (eng : SQLEngine) (pkI : Option (List String)) (db table : String)
      (page : Int) (search sort_col : Option String) (sort_dir : String)
      (ordered rows rows2 : List (List (String × PyObj))) (total total2 : Int),
      eng.honorsLimitOffset (SQLAdapter.get_pk pkI) table search
        (SQLAdapter.sortField sort_col (SQLAdapter.get_pk pkI)) sort_dir
        ordered →
      1 ≤ page →
      (ordered.map (SQLAdapter.rowId (SQLAdapter.get_pk pkI))).Nodup →
      SQLAdapter.get_rows eng pkI db table page search sort_col sort_dir
        = .ok (rows, total) →
      SQLAdapter.get_rows eng pkI db table (page + 1) search sort_col sort_dir
        = .ok (rows2, total2) →
      (rows.length ≤ ROWS_PER_PAGE ∧
        ∀ r1 ∈ rows, ∀ r2 ∈ rows2,
          r1.lookup "__id" ≠ r2.lookup "__id") := by
  intro eng pkI db table page search sort_col sort_dir ordered rows rows2
    total total2 hhon hpage hnd h1 h2
  have hstart : 0 ≤ (page - 1) * ((ROWS_PER_PAGE : Nat) : Int) := by
    rw [show ((ROWS_PER_PAGE : Nat) : Int) = 50 from rfl]
    omega
  simp only [SQLAdapter.get_rows] at h1 h2
  rw [hhon ((page - 1) * (ROWS_PER_PAGE : Int))] at h1
  rw [hhon ((page + 1 - 1) * (ROWS_PER_PAGE : Int))] at h2
  simp only [Except.ok.injEq, Prod.mk.injEq] at h1 h2
  obtain ⟨hrows, -⟩ := h1
  obtain ⟨hrows2, -⟩ := h2
  subst hrows
  subst hrows2
  constructor
  · rw [List.length_map]
    exact pySlice_length_le _ _ ROWS_PER_PAGE hstart
  · intro r1 hr1 r2 hr2
    obtain ⟨q1, hq1, hq1e⟩ := List.mem_map.1 hr1
    obtain ⟨q2, hq2, hq2e⟩ := List.mem_map.1 hr2
    rw [← hq1e, ← hq2e, decorateRow_lookup_id, decorateRow_lookup_id]
    intro heq
    simp only [Option.some.injEq, PyObj.pyStr.injEq] at heq
    exact slice_pages_id_disjoint ordered
      (SQLAdapter.rowId (SQLAdapter.get_pk pkI)) page hpage hnd q1 hq1 q2 hq2
      heq

/-- The document page bound and cross-page disjointness, under the
cursor's `skip/limit` contract and duplicate-free normalized `_id`s over
the ordered result set. -/
theorem c9_mongo :
    ∀ (col : MongoCollection) (db table : String) (page : Int)
      (search sort_col : Option String) (sort_dir : String),
      1 ≤ page →
      ((col.findSorted (MongoAdapter.buildQuery search)
          (MongoAdapter.buildSortField sort_col) (sort_dir = "asc")).map
        MongoAdapter.rowId).Nodup →
      ((MongoAdapter.get_rows col db table page search sort_col
          sort_dir).1.length ≤ ROWS_PER_PAGE ∧
        ∀ r1 ∈ (MongoAdapter.get_rows col db table page search sort_col
            sort_dir).1,
        ∀ r2 ∈ (MongoAdapter.get_rows col db table (page + 1) search sort_col
            sort_dir).1,
          r1.lookup "__id" ≠ r2.lookup "__id") := by
  intro col db table page search sort_col sort_dir hpage hnd
  have hstart : 0 ≤ (page - 1) * ((ROWS_PER_PAGE : Nat) : Int) := by
    rw [show ((ROWS_PER_PAGE : Nat) : Int) = 50 from rfl]
    omega
  constructor
  · simp only [MongoAdapter.get_rows]
    rw [List.length_map]
    exact pySlice_length_le _ _ ROWS_PER_PAGE hstart
  · simp only [MongoAdapter.get_rows]
    intro r1 hr1 r2 hr2
    obtain ⟨q1, hq1, hq1e⟩ := List.mem_map.1 hr1
    obtain ⟨q2, hq2, hq2e⟩ := List.mem_map.1 hr2
    rw [← hq1e, ← hq2e, decorateDoc_lookup_id, decorateDoc_lookup_id]
    intro heq
    simp only [Option.some.injEq, PyObj.pyStr.injEq] at heq
    have hc1 : (page + 1 - 1) * ((ROWS_PER_PAGE : Nat) : Int)
        = (page - 1) * ((ROWS_PER_PAGE : Nat) : Int)
          + ((ROWS_PER_PAGE : Nat) : Int) := by ring
    exact slice_pages_id_disjoint _ MongoAdapter.rowId page hpage hnd q1 hq1
      q2 hq2 heq

/-- C9: for every backend, `listRows` uses the fixed page size constant
`ROWS_PER_PAGE = 50` with 1-based page numbers and offset
`(page-1) × pageSize`, the returned row list never has more than 50
elements, and the normalized identifiers returned for page `N+1` are
disjoint from those of page `N` over an unchanged store: for the key-value
adapter outright (live keys are distinct); for the relational adapter
under the engine's `LIMIT/OFFSET` contract and duplicate-free stringified
primary keys; and for the document adapter under the cursor's
`skip/limit` contract and duplicate-free stringified `_id`s. -/
theorem C9_pagination_bounded_and_disjoint :
    ROWS_PER_PAGE = 50 ∧
    (∀ (st : RedisStore) (db t : String) (page : Int)
      (search : Option String) (sc : Option String) (sd : String),
      (st.map Prod.fst).Nodup → 1 ≤ page →
      ((RedisAdapter.get_rows st db t page search sc sd).1.length
          ≤ ROWS_PER_PAGE ∧
        ∀ r1 ∈ (RedisAdapter.get_rows st db t page search sc sd).1,
        ∀ r2 ∈ (RedisAdapter.get_rows st db t (page + 1) search sc sd).1,
          r1.__id ≠ r2.__id)) ∧
    (∀ (eng : SQLEngine) (pkI : Option (List String)) (db table : String)
      (page : Int) (search sort_col : Option String) (sort_dir : String)
      (ordered rows rows2 : List (List (String × PyObj))) (total total2 : Int),
      eng.honorsLimitOffset (SQLAdapter.get_pk pkI) table search
        (SQLAdapter.sortField sort_col (SQLAdapter.get_pk pkI)) sort_dir
        ordered →
      1 ≤ page →
      (ordered.map (SQLAdapter.rowId (SQLAdapter.get_pk pkI))).Nodup →
      SQLAdapter.get_rows eng pkI db table page search sort_col sort_dir
        = .ok (rows, total) →
      SQLAdapter.get_rows eng pkI db table (page + 1) search sort_col sort_dir
        = .ok (rows2, total2) →
      (rows.length ≤ ROWS_PER_PAGE ∧
        ∀ r1 ∈ rows, ∀ r2 ∈ rows2,
          r1.lookup "__id" ≠ r2.lookup "__id")) ∧
    (∀ (col : MongoCollection) (db table : String) (page : Int)
      (search sort_col : Option String) (sort_dir : String),
      1 ≤ page →
      ((col.findSorted (MongoAdapter.buildQuery search)
          (MongoAdapter.buildSortField sort_col) (sort_dir = "asc")).map
        MongoAdapter.rowId).Nodup →
      ((MongoAdapter.get_rows col db table page search sort_col
          sort_dir).1.length ≤ ROWS_PER_PAGE ∧
        ∀ r1 ∈ (MongoAdapter.get_rows col db table page search sort_col
            sort_dir).1,
        ∀ r2 ∈ (MongoAdapter.get_rows col db table (page + 1) search sort_col
            sort_dir).1,
          r1.lookup "__id" ≠ r2.lookup "__id")) := by
  exact ⟨rfl, c9_redis, c9_sql, c9_mongo⟩

/-- A concrete three-key store for the pagination witness. -/
def c9Store : RedisStore :=
  [("alpha", .rstr "1"), ("beta", .rstr "2"), ("gamma", .rstr "3")]

/-- An engine over an empty result set: it honors the `LIMIT/OFFSET`
contract trivially (every slice of the empty ordered result is empty). -/
def emptyTableEngine : SQLEngine :=
  { dialect := "postgresql"
    execScalar := fun _ _ => .ok 0
    execQuery := fun _ _ => .ok [] }

/-- A two-document collection for the pagination witness. -/
def c9Collection : MongoCollection :=
  { findSorted := fun _ _ _ =>
      [[("_id", .pyStr "a1"), ("name", .pyStr "x")],
       [("_id", .pyStr "b2"), ("name", .pyStr "y")]]
    countDocuments := fun _ => 2 }

/-- Witness for C9: the page bound at page 1, at a concrete store for each
of the three backends. -/
theorem C9_pagination_witness :
    (RedisAdapter.get_rows c9Store "DB 0" "Keys" 1 none none "desc").1.length
      ≤ ROWS_PER_PAGE ∧
    ([] : List (List (String × PyObj))).length ≤ ROWS_PER_PAGE ∧
    (MongoAdapter.get_rows c9Collection "app" "users" 1 none none
        "desc").1.length ≤ ROWS_PER_PAGE :=
  ⟨(C9_pagination_bounded_and_disjoint.2.1 c9Store "DB 0" "Keys" 1 none none
      "desc" (by decide) (by decide)).1,
   (C9_pagination_bounded_and_disjoint.2.2.1 emptyTableEngine (some ["id"])
      "db" "users" 1 none none "desc" [] [] [] 0 0
      (by intro off; simp [emptyTableEngine, pySlice]) (by decide) (by decide)
      rfl rfl).1,
   (C9_pagination_bounded_and_disjoint.2.2.2 c9Collection "app" "users" 1
      none none "desc" (by decide) (by decide)).1⟩

end DBCompass
